import Mathlib

/-!
# Verification of the video playback monitor and trial orchestrator

Shallow embedding of `src/__init__.py` (an Azure Function that drives a
headless browser, plays a media element and classifies each playback trial).

Modelling decisions:

* The Playwright `page` object is the external Probe.  From the Python side,
  every interaction with it (`query_selector`, `evaluate`, including the
  conversion of returned data) either yields a value or raises.  We model the
  page as a `PageBehavior`: an oracle giving, for each call site of
  `wait_for_video_end`, an `Except String` result.  The two in-loop `evaluate`
  calls are indexed by the poll number (value of `elapsed` at the call),
  since the page state evolves across polls.
* Numeric values crossing the boundary (the `float` durations) are modelled
  as `ℚ`.  IEEE special values (NaN / Infinity) returned by the in-page
  JavaScript fall under "unavailable" (`none`); `+Infinity` durations of live
  streams are not modelled.
* The JavaScript expressions the monitor evaluates are additionally given a
  semantics over an abstract element state (`ElemState`), so that facts such
  as "a disappeared element reads as ended" and the
  `v.currentTime || v.duration || null` fallback chain are statable.
* Side effects are tracked in `Stats`: how many times the play-starting
  `evaluate` ran, how many `ended` polls ran, and how many `time.sleep(1)`
  calls ran.
* `while elapsed < max_wait` with `elapsed` starting at 0 and increasing by
  exactly 1 per iteration is embedded structurally: the loop body can run at
  most `max_wait` more times, so we recurse on that count (`remaining`),
  keeping `elapsed` as the poll index.  `remaining = max_wait - elapsed` is
  maintained, so `remaining = 0` exactly when `elapsed < max_wait` fails.
* `datetime.utcnow()` timestamps are opaque strings supplied by the
  environment; browser launch / `goto` / `close` are environment results.
-/

namespace VideoPlayback

/-- The closed outcome enum of a trial (`status` strings in the source). -/
inductive Outcome where
  | no_video
  | play_failed
  | played
  | timeout
  | error
deriving DecidableEq, Repr

/-- The triple returned by `wait_for_video_end`: `(status, duration, note)`. -/
structure MonitorResult where
  outcome : Outcome
  duration : Option ℚ
  note : String
deriving DecidableEq, Repr

/-- Observable side effects of one monitor run: number of times the
play-starting `evaluate` was executed, number of `ended` polls executed, and
number of `time.sleep(poll)` calls executed. -/
structure Stats where
  playEvalCalls : ℕ
  endedPolls : ℕ
  sleeps : ℕ
deriving DecidableEq, Repr

/-- Count one `ended` poll. -/
def Stats.incPoll (s : Stats) : Stats := { s with endedPolls := s.endedPolls + 1 }

/-- Count one `time.sleep(poll)` call. -/
def Stats.incSleep (s : Stats) : Stats := { s with sleeps := s.sleeps + 1 }

/-- No side effects yet. -/
def Stats.init : Stats := ⟨0, 0, 0⟩

/-- Oracle model of the live page as seen from `wait_for_video_end`.
Each field is the outcome of one call site: `.error e` models the Playwright
call raising a Python exception with message `e`.

* `queryResult`  : `page.query_selector(selector)` — whether a handle was
  returned (truthy) or `None`;
* `durationEval` : the informational duration probe (`v.duration` or `-1`);
* `playEval`     : the `started` evaluate (the in-page script returns
  `false` iff the element is gone or `play()` threw at the call site);
* `endedEval t`  : the `ended` evaluate executed at poll number `t`;
* `playedEval t` : the `currentTime || duration || null` evaluate executed
  when poll `t` observed `ended`, combined with Python `float` conversion
  (`none` models JavaScript `null`). -/
structure PageBehavior where
  queryResult : Except String Bool
  durationEval : Except String ℚ
  playEval : Except String Bool
  endedEval : ℕ → Except String Bool
  playedEval : ℕ → Except String (Option ℚ)

/-- Abstract state of the matched element at some instant: its `ended` flag,
its `currentTime` (a finite number on a media element), and its `duration`
(`none` models a non-finite reading, i.e. NaN while no metadata is loaded). -/
structure ElemState where
  ended : Bool
  currentTime : ℚ
  duration : Option ℚ
deriving DecidableEq, Repr

/-- Semantics of the in-page script `v ? !!v.ended : true` at one poll:
a disappeared element reads as ended. -/
def endedExprSem (elem : Option ElemState) : Bool :=
  match elem with
  | none => true
  | some v => v.ended

/-- Semantics of the in-page script `v.currentTime || v.duration || null`
(with `!v` giving `null`): JavaScript `||` skips falsy values, so a zero
`currentTime` falls through to `duration`, and a zero or non-finite
`duration` falls through to `null`. -/
def playedExprSem (elem : Option ElemState) : Option ℚ :=
  match elem with
  | none => none
  | some v =>
    if v.currentTime ≠ 0 then some v.currentTime
    else
      match v.duration with
      | some d => if d ≠ 0 then some d else none
      | none => none

/-- Semantics of the duration probe `v ? (isFinite(v.duration) ? v.duration : -1) : -1`. -/
def durationProbeSem (elem : Option ElemState) : ℚ :=
  match elem with
  | none => -1
  | some v =>
    match v.duration with
    | some d => d
    | none => -1

/-- Semantics of the `started` script: `false` when the element is gone,
`false` when `play()` throws at the call site (the script catches it),
`true` otherwise (a rejected promise is only logged). -/
def startedExprSem (elem : Option ElemState) (playThrows : Bool) : Bool :=
  match elem with
  | none => false
  | some _ => !playThrows

/-- A page behavior generated by executing the monitor scripts against an
element trace: `init` is the element state at the initial checks, `trace t`
its state at poll `t`, `playThrows` whether `play()` throws at the call site.
No Playwright-level exception occurs. -/
def pageOfTrace (init : Option ElemState) (playThrows : Bool)
    (trace : ℕ → Option ElemState) : PageBehavior where
  queryResult := .ok init.isSome
  durationEval := .ok (durationProbeSem init)
  playEval := .ok (startedExprSem init playThrows)
  endedEval := fun t => .ok (endedExprSem (trace t))
  playedEval := fun t => .ok (playedExprSem (trace t))

/-- `int(max_wait_seconds if max_wait_seconds > 0 else 600)`. -/
def coerceMaxWait (m : ℤ) : ℕ :=
  if 0 < m then m.toNat else 600

/-- Note returned with outcome `no_video`. -/
def noVideoNote (selector : String) : String :=
  "No element matching selector \x27" ++ selector ++ "\x27 found."

/-- Note returned with outcome `play_failed`. -/
def playFailedNote : String :=
  "video element exists but play() could not start (autoplay blocked?)."

/-- Fixed note returned with outcome `played`. -/
def playedNote : String := "Video ended normally."

/-- Note returned with outcome `timeout`; mentions the coerced bound. -/
def timeoutNote (maxWait : ℕ) : String :=
  "Timed out after " ++ toString maxWait ++ " seconds waiting for video to end."

/-- Note returned with outcome `error`; mentions the exception text. -/
def errorNote (e : String) : String :=
  "Exception while waiting for video end: " ++ e

/-- The `while elapsed < max_wait` poll loop.  `remaining` is the number of
iterations the guard still allows (`max_wait - elapsed`), `elapsed` the poll
index.  Per iteration: evaluate `ended`; if true, evaluate the duration
read-back and return `played`; otherwise `time.sleep(poll)` and continue.
When the guard fails, return `timeout`.  An `.error` from either evaluate is
the Playwright call raising; it propagates to the handler in
`wait_for_video_end`. -/
def pollLoopAux (page : PageBehavior) (maxWait : ℕ) :
    ℕ → ℕ → Stats → Except String MonitorResult × Stats
  | 0, _, s => (.ok ⟨.timeout, none, timeoutNote maxWait⟩, s)
  | remaining + 1, elapsed, s =>
    match page.endedEval elapsed with
    | .error e => (.error e, s.incPoll)
    | .ok true =>
      match page.playedEval elapsed with
      | .error e => (.error e, s.incPoll)
      | .ok p => (.ok ⟨.played, p, playedNote⟩, s.incPoll)
    | .ok false => pollLoopAux page maxWait remaining (elapsed + 1) s.incPoll.incSleep

/-- The poll loop entered with `elapsed = 0`: the guard allows exactly
`maxWait` iterations. -/
def pollLoop (page : PageBehavior) (maxWait : ℕ) (s : Stats) :
    Except String MonitorResult × Stats :=
  pollLoopAux page maxWait maxWait 0 s

/-- Body of the `try:` block of `wait_for_video_end`: existence check,
informational duration probe, play start, then the poll loop.  An `.error`
anywhere is a raised exception reaching the `except` handler. -/
def waitForVideoEndCore (page : PageBehavior) (selector : String)
    (maxWaitSeconds : ℤ) : Except String MonitorResult × Stats :=
  match page.queryResult with
  | .error e => (.error e, Stats.init)
  | .ok ex =>
    if !ex then
      (.ok ⟨.no_video, none, noVideoNote selector⟩, Stats.init)
    else
      match page.durationEval with
      | .error e => (.error e, Stats.init)
      | .ok _ =>
        match page.playEval with
        | .error e => (.error e, { Stats.init with playEvalCalls := 1 })
        | .ok started =>
          let s : Stats := { Stats.init with playEvalCalls := 1 }
          if !started then
            (.ok ⟨.play_failed, none, playFailedNote⟩, s)
          else
            pollLoop page (coerceMaxWait maxWaitSeconds) s

/-- `wait_for_video_end(page, selector, max_wait_seconds)`: the `except`
handler converts any exception raised in the body into the `error` outcome
with a null duration and a note carrying the exception text. -/
def wait_for_video_end (page : PageBehavior) (selector : String)
    (maxWaitSeconds : ℤ) : MonitorResult × Stats :=
  match waitForVideoEndCore page selector maxWaitSeconds with
  | (.ok r, s) => (r, s)
  | (.error e, s) => (⟨.error, none, errorNote e⟩, s)

/-- Python bankers rounding of a rational to the nearest integer
(ties go to the even integer), as `round` does on exact values. -/
def roundHalfEven (q : ℚ) : ℤ :=
  if q - ⌊q⌋ < 1 / 2 then ⌊q⌋
  else if 1 / 2 < q - ⌊q⌋ then ⌊q⌋ + 1
  else if ⌊q⌋ % 2 = 0 then ⌊q⌋ else ⌊q⌋ + 1

/-- `round(x, 2)` on an exact value: bankers rounding at 2 decimal places. -/
def round2 (q : ℚ) : ℚ := (roundHalfEven (q * 100) : ℚ) / 100

/-- One trial record of the report: `run` is 1-based, timestamps are the
opaque `isoformat()` strings, `duration_sec` is nullable. -/
structure TrialRecord where
  run : ℕ
  start_time : String
  end_time : String
  duration_sec : Option ℚ
  status : Outcome
  note : String
deriving DecidableEq, Repr

/-- Environment of one `main` invocation: results of browser setup /
navigation and teardown, the page behavior seen by trial `i` (0-based), and
the timestamps taken around trial `i`. -/
structure Env where
  gotoResult : Except String Unit
  closeResult : Except String Unit
  pages : ℕ → PageBehavior
  startTime : ℕ → String
  endTime : ℕ → String

/-- The record appended for loop index `i` (0-based): `run = i+1`,
`duration_sec = round(duration, 2) if duration else None` — Python
truthiness, so both `None` and `0.0` record as null — and status and note
passed through verbatim. -/
def trialRecord (sel : String) (mw : ℤ) (env : Env) (i : ℕ) : TrialRecord :=
  let r := (wait_for_video_end (env.pages i) sel mw).1
  { run := i + 1
    start_time := env.startTime i
    end_time := env.endTime i
    duration_sec :=
      match r.duration with
      | some q => if q ≠ 0 then some (round2 q) else none
      | none => none
    status := r.outcome
    note := r.note }

/-- `for i in range(runs): ... results.append({...})`: the loop body always
runs to the `append` (the monitor never raises), so the report is the map of
`trialRecord` over `0, ..., runs-1`; `range` of a non-positive count is
empty. -/
def mainRecords (sel : String) (mw : ℤ) (env : Env) (runs : ℤ) :
    List TrialRecord :=
  (List.range runs.toNat).map (trialRecord sel mw env)

/-- What `main` returns: a plain text response (400 / 500 paths) or the
serialized report with its HTTP status. -/
inductive MainResult where
  | response (body : String) (status : ℕ)
  | okRecords (records : List TrialRecord) (status : ℕ)
deriving Repr

/-- `main(req)`: `url` missing or empty (`if not url`) gives 400; a raise
from the Playwright block (navigation or teardown) gives 500; otherwise the
report is built trial by trial and returned with 200.  `runsParam` is the
already-parsed `int` of the runs request parameter (default 5); `sel` and `mw` are the
module configuration `VIDEO_SELECTOR` / `MAX_WAIT_SECONDS` that
`wait_for_video_end` receives as defaults. -/
def main (url : Option String) (runsParam : ℤ) (sel : String) (mw : ℤ)
    (env : Env) : MainResult :=
  match url with
  | none => .response "No URL provided" 400
  | some u =>
    if u = "" then .response "No URL provided" 400
    else
      match env.gotoResult with
      | .error e => .response ("Error running Playwright: " ++ e) 500
      | .ok _ =>
        match env.closeResult with
        | .error e => .response ("Error running Playwright: " ++ e) 500
        | .ok _ => .okRecords (mainRecords sel mw env runsParam) 200

/-- `needle` occurs contiguously inside `hay` (stated over the character
lists). -/
def strIncludes (hay needle : String) : Prop :=
  ∃ s t, hay.data = s ++ needle.data ++ t

/-! ## Concrete page behaviors and environments used to exercise the
definitions on closed inputs -/

/-- A page whose element exists, reports duration 10, accepts play, and is
already ended at every poll with playback position 12.3. -/
def samplePage : PageBehavior :=
  ⟨.ok true, .ok 10, .ok true, fun _ => .ok true, fun _ => .ok (some (123 / 10))⟩

/-- Environment whose every trial sees `samplePage`. -/
def sampleEnv : Env :=
  ⟨.ok (), .ok (), fun _ => samplePage, fun _ => "2026-10-12T00:00:00",
    fun _ => "2026-10-12T00:00:01"⟩

/-- A page whose `query_selector` call raises. -/
def raisingPage : PageBehavior :=
  ⟨.error "boom", .ok 0, .ok true, fun _ => .ok false, fun _ => .ok none⟩

/-- A page whose element exists and plays but is never observed ended. -/
def neverEndedPage : PageBehavior :=
  ⟨.ok true, .ok 10, .ok true, fun _ => .ok false, fun _ => .ok none⟩

/-- A page whose element exists but whose play script reports failure. -/
def playFailPage : PageBehavior :=
  ⟨.ok true, .ok 10, .ok false, fun _ => .ok true, fun _ => .ok none⟩

/-- Environment whose every trial sees `playFailPage`. -/
def playFailEnv : Env :=
  ⟨.ok (), .ok (), fun _ => playFailPage, fun _ => "t0", fun _ => "t1"⟩

/-- A page whose element is ended at once with playback position read back
as exactly 0. -/
def zeroDurationPage : PageBehavior :=
  ⟨.ok true, .ok 0, .ok true, fun _ => .ok true, fun _ => .ok (some 0)⟩

/-- Environment whose every trial sees `zeroDurationPage`. -/
def zeroDurationEnv : Env :=
  ⟨.ok (), .ok (), fun _ => zeroDurationPage, fun _ => "t0", fun _ => "t1"⟩

/-- A page with no element matching the selector. -/
def absentPage : PageBehavior :=
  ⟨.ok false, .ok 0, .ok true, fun _ => .ok true, fun _ => .ok none⟩

/-- Element trace for exercising the ended-observation path: not ended at
poll 0, ended with position 12.3 at every later poll. -/
def sampleTrace : ℕ → Option ElemState := fun u =>
  if u = 0 then some ⟨false, 3, some 20⟩ else some ⟨true, 123 / 10, some 20⟩

/-! ## Helper lemmas -/

/-- The coerced poll bound is always positive. -/
lemma coerceMaxWait_pos (m : ℤ) : 0 < coerceMaxWait m := by
  unfold coerceMaxWait
  split <;> omega

/-- Bankers rounding of a non-negative rational is non-negative. -/
lemma roundHalfEven_nonneg (q : ℚ) (h : 0 ≤ q) : 0 ≤ roundHalfEven q := by
  have hf : 0 ≤ ⌊q⌋ := Int.floor_nonneg.mpr h
  unfold roundHalfEven
  split_ifs <;> omega

/-- Rounding a non-negative rational at 2 decimal places is non-negative. -/
lemma round2_nonneg (q : ℚ) (h : 0 ≤ q) : 0 ≤ round2 q := by
  have h1 : 0 ≤ roundHalfEven (q * 100) := roundHalfEven_nonneg _ (by positivity)
  unfold round2
  exact div_nonneg (by exact_mod_cast h1) (by norm_num)

/-- If every poll the guard allows reads `ended = false`, the loop returns
`timeout` after performing exactly `remaining` polls and sleeps. -/
lemma pollLoopAux_all_false (page : PageBehavior) (M : ℕ) :
    ∀ (remaining elapsed : ℕ) (s : Stats),
      (∀ t, elapsed ≤ t → t < elapsed + remaining → page.endedEval t = .ok false) →
      pollLoopAux page M remaining elapsed s =
        (.ok ⟨.timeout, none, timeoutNote M⟩,
          ⟨s.playEvalCalls, s.endedPolls + remaining, s.sleeps + remaining⟩) := by
  intro remaining
  induction remaining with
  | zero =>
    intro elapsed s _
    simp [pollLoopAux]
  | succ k ih =>
    intro elapsed s h
    have h0 : page.endedEval elapsed = .ok false := h elapsed le_rfl (by omega)
    simp only [pollLoopAux, h0, Stats.incPoll, Stats.incSleep]
    rw [ih (elapsed + 1) ⟨s.playEvalCalls, s.endedPolls + 1, s.sleeps + 1⟩
      (fun t h1 h2 => h t (by omega) (by omega))]
    simp only [Prod.mk.injEq, Stats.mk.injEq, true_and]
    omega

/-- If the first `ended = true` observation happens at poll `t` within the
guard, the loop returns `played` with the duration read back at poll `t`. -/
lemma pollLoopAux_first_ended (page : PageBehavior) (M : ℕ) :
    ∀ (remaining elapsed : ℕ) (s : Stats) (t : ℕ) (p : Option ℚ),
      elapsed ≤ t → t < elapsed + remaining →
      (∀ u, elapsed ≤ u → u < t → page.endedEval u = .ok false) →
      page.endedEval t = .ok true → page.playedEval t = .ok p →
      (pollLoopAux page M remaining elapsed s).1 = .ok ⟨.played, p, playedNote⟩ := by
  intro remaining
  induction remaining with
  | zero =>
    intro elapsed s t p h1 h2 _ _ _
    omega
  | succ k ih =>
    intro elapsed s t p h1 h2 hbef hat hpl
    by_cases he : elapsed = t
    · subst he
      simp only [pollLoopAux, hat, hpl]
    · have hlt : elapsed < t := lt_of_le_of_ne h1 he
      have h0 : page.endedEval elapsed = .ok false := hbef elapsed le_rfl hlt
      simp only [pollLoopAux, h0]
      exact ih (elapsed + 1) _ t p (by omega) (by omega)
        (fun u hu1 hu2 => hbef u (by omega) hu2) hat hpl

/-- Whatever the page does, a normal return of the poll loop is either a
`played` result whose duration is one of the duration read-backs of the page, or
a `timeout` result with a null duration. -/
lemma pollLoopAux_ok_inv (page : PageBehavior) (M : ℕ) :
    ∀ (remaining elapsed : ℕ) (s : Stats) (r : MonitorResult) (s' : Stats),
      pollLoopAux page M remaining elapsed s = (.ok r, s') →
      (r.outcome = .played ∧ ∃ t, page.playedEval t = .ok r.duration) ∨
      (r.outcome = .timeout ∧ r.duration = none) := by
  intro remaining
  induction remaining with
  | zero =>
    intro elapsed s r s' h
    simp only [pollLoopAux, Prod.mk.injEq, Except.ok.injEq] at h
    right
    rw [← h.1]
    exact ⟨rfl, rfl⟩
  | succ k ih =>
    intro elapsed s r s' h
    simp only [pollLoopAux] at h
    rcases hE : page.endedEval elapsed with e | b
    · rw [hE] at h
      exact absurd h (by simp)
    · rw [hE] at h
      cases b with
      | false => exact ih _ _ _ _ h
      | true =>
        rcases hP : page.playedEval elapsed with e | p
        · rw [hP] at h
          exact absurd h (by simp)
        · rw [hP] at h
          simp only [Prod.mk.injEq, Except.ok.injEq] at h
          left
          rw [← h.1]
          exact ⟨rfl, elapsed, by rw [hP]⟩

/-- A normal (non-raising) return of the monitor body is `no_video`,
`play_failed` or `timeout` with a null duration, or `played` with a duration
read back from the page. -/
lemma core_ok_inv (page : PageBehavior) (sel : String) (mw : ℤ)
    (r : MonitorResult) (s : Stats)
    (h : waitForVideoEndCore page sel mw = (.ok r, s)) :
    (r.outcome = .played ∧ ∃ t, page.playedEval t = .ok r.duration) ∨
    (r.outcome ≠ .played ∧ r.duration = none) := by
  unfold waitForVideoEndCore at h
  rcases hq : page.queryResult with e | ex
  · rw [hq] at h
    exact absurd h (by simp)
  · rw [hq] at h
    cases ex with
    | false =>
      simp only [Bool.not_false, if_true, Prod.mk.injEq, Except.ok.injEq] at h
      right
      rw [← h.1]
      exact ⟨by simp, rfl⟩
    | true =>
      rcases hd : page.durationEval with e | d
      · rw [hd] at h
        exact absurd h (by simp)
      · rw [hd] at h
        rcases hp : page.playEval with e | started
        · rw [hp] at h
          exact absurd h (by simp)
        · rw [hp] at h
          cases started with
          | false =>
            simp only [Bool.not_true, Bool.not_false, Bool.false_eq_true,
              if_false, if_true, Prod.mk.injEq, Except.ok.injEq] at h
            right
            rw [← h.1]
            exact ⟨by simp, rfl⟩
          | true =>
            simp only [Bool.not_true, Bool.false_eq_true, if_false, pollLoop] at h
            rcases pollLoopAux_ok_inv page _ _ _ _ _ _ h with hres | hres
            · exact Or.inl hres
            · exact Or.inr ⟨by rw [hres.1]; simp, hres.2⟩

/-- Outcome/duration discipline of `wait_for_video_end`: a `played` outcome
carries a duration read back from the page; every other outcome carries a
null duration. -/
lemma wait_spec (page : PageBehavior) (sel : String) (mw : ℤ) :
    ((wait_for_video_end page sel mw).1.outcome = .played →
      ∃ t, page.playedEval t = .ok (wait_for_video_end page sel mw).1.duration) ∧
    ((wait_for_video_end page sel mw).1.outcome ≠ .played →
      (wait_for_video_end page sel mw).1.duration = none) := by
  unfold wait_for_video_end
  rcases hc : waitForVideoEndCore page sel mw with ⟨exc, s⟩
  cases exc with
  | error e => simp
  | ok r =>
    simp only
    rcases core_ok_inv page sel mw r s hc with ⟨h1, h2⟩ | ⟨h1, h2⟩
    · exact ⟨fun _ => h2, fun hn => absurd h1 hn⟩
    · exact ⟨fun hp => absurd hp h1, fun _ => h2⟩

/-- Under a found element, a successful duration probe and an accepted play
call, the monitor is the poll loop (entered with one play evaluation on the
books). -/
lemma wait_unfold_steps (page : PageBehavior) (sel : String) (mw : ℤ)
    (hq : page.queryResult = .ok true) (d : ℚ)
    (hd : page.durationEval = .ok d) (hp : page.playEval = .ok true) :
    wait_for_video_end page sel mw =
      (match pollLoop page (coerceMaxWait mw) ⟨1, 0, 0⟩ with
       | (.ok r, s) => (r, s)
       | (.error e, s) => (⟨.error, none, errorNote e⟩, s)) := by
  unfold wait_for_video_end waitForVideoEndCore
  rw [hq, hd, hp]
  rfl

/-- Monitor-level form of `pollLoopAux_first_ended`. -/
lemma wait_first_ended (page : PageBehavior) (sel : String) (m : ℤ)
    (t : ℕ) (p : Option ℚ)
    (hq : page.queryResult = .ok true) (hd : ∃ d, page.durationEval = .ok d)
    (hp : page.playEval = .ok true) (ht : t < coerceMaxWait m)
    (hbefore : ∀ u, u < t → page.endedEval u = .ok false)
    (hat : page.endedEval t = .ok true) (hpl : page.playedEval t = .ok p) :
    (wait_for_video_end page sel m).1 = ⟨.played, p, playedNote⟩ := by
  obtain ⟨d, hd⟩ := hd
  rw [wait_unfold_steps page sel m hq d hd hp]
  have h1 := pollLoopAux_first_ended page (coerceMaxWait m) (coerceMaxWait m) 0
    ⟨1, 0, 0⟩ t p (by omega) (by omega) (fun u _ h2 => hbefore u h2) hat hpl
  unfold pollLoop at h1 ⊢
  rcases hres : pollLoopAux page (coerceMaxWait m) (coerceMaxWait m) 0 ⟨1, 0, 0⟩
    with ⟨exc, st⟩
  rw [hres] at h1
  simp only at h1
  subst h1
  rfl

/-! ## Claims -/

/-- Claim C1: for every N ≥ 1, a completed run produces a report of exactly
N trial records whose run indices are 1..N in insertion order, and the
record of each trial is determined by that trial alone — in particular the
monitor is invoked for trial i+1 regardless of the outcome of trial i (the
loop body is applied at every index, and the record at index i depends only
on the page behavior and timestamps of trial i). -/
theorem claim_C1 (sel : String) (mw : ℤ) (env : Env) (N : ℤ) (hN : 1 ≤ N) :
    (mainRecords sel mw env N).length = N.toNat ∧
    (∀ i, i < N.toNat →
      (mainRecords sel mw env N)[i]? = some (trialRecord sel mw env i) ∧
      ∃ rec, (mainRecords sel mw env N)[i]? = some rec ∧ rec.run = i + 1) ∧
    (∀ (env2 : Env) (i : ℕ), env.pages i = env2.pages i →
      env.startTime i = env2.startTime i → env.endTime i = env2.endTime i →
      trialRecord sel mw env i = trialRecord sel mw env2 i) := by
  have _ := hN
  refine ⟨?_, ?_, ?_⟩
  · simp [mainRecords]
  · intro i hi
    have hget : (mainRecords sel mw env N)[i]? = some (trialRecord sel mw env i) := by
      simp [mainRecords, List.getElem?_map, List.getElem?_range, hi]
    exact ⟨hget, trialRecord sel mw env i, hget, rfl⟩
  · intro env2 i h1 h2 h3
    simp [trialRecord, h1, h2, h3]

/-- Witness for C1: N = 2 against a concrete environment. -/
theorem claim_C1_witness :
    (mainRecords "video" 600 sampleEnv 2).length = (2 : ℤ).toNat ∧
    (mainRecords "video" 600 sampleEnv 2)[0]? =
      some (trialRecord "video" 600 sampleEnv 0) ∧
    ∃ rec, (mainRecords "video" 600 sampleEnv 2)[1]? = some rec ∧ rec.run = 2 := by
  have h := claim_C1 "video" 600 sampleEnv 2 (by decide)
  exact ⟨h.1, (h.2.1 0 (by decide)).1, (h.2.1 1 (by decide)).2⟩

/-- Claim C2: the monitor never raises — for every page behavior, including
any call raising at any step, it returns a result whose outcome is one of
the five enum values, and a raise anywhere in the body is converted into
outcome `error` with a null duration and a note containing the failure
description. -/
theorem claim_C2 (page : PageBehavior) (sel : String) (mw : ℤ) :
    ((wait_for_video_end page sel mw).1.outcome = .no_video ∨
      (wait_for_video_end page sel mw).1.outcome = .play_failed ∨
      (wait_for_video_end page sel mw).1.outcome = .played ∨
      (wait_for_video_end page sel mw).1.outcome = .timeout ∨
      (wait_for_video_end page sel mw).1.outcome = .error) ∧
    ∀ e s, waitForVideoEndCore page sel mw = (.error e, s) →
      wait_for_video_end page sel mw = (⟨.error, none, errorNote e⟩, s) ∧
      strIncludes (errorNote e) e := by
  constructor
  · cases h : (wait_for_video_end page sel mw).1.outcome <;> simp [h]
  · intro e s h
    constructor
    · unfold wait_for_video_end
      rw [h]
    · exact ⟨"Exception while waiting for video end: ".data, [], by
        simp [errorNote, String.data_append]⟩

/-- Witness for C2: a page whose `query_selector` call raises. -/
theorem claim_C2_witness :
    wait_for_video_end raisingPage "video" 600 =
      (⟨.error, none, errorNote "boom"⟩, Stats.init) ∧
    strIncludes (errorNote "boom") "boom" :=
  (claim_C2 raisingPage "video" 600).2 "boom" Stats.init rfl

/-- Claim C3: for every record of the report, outcome `played` implies the
recorded duration is null or a non-negative number, and any other outcome
implies the recorded duration is null.  The hypothesis states that the
duration read-backs the page delivers are non-negative when present, which
holds of a real media element (`currentTime` and `duration` are
non-negative). -/
theorem claim_C3 (sel : String) (mw : ℤ) (env : Env) (runs : ℤ)
    (hpos : ∀ i t q, (env.pages i).playedEval t = Except.ok (some q) → 0 ≤ q) :
    ∀ rec ∈ mainRecords sel mw env runs,
      (rec.status = .played →
        rec.duration_sec = none ∨ ∃ q, rec.duration_sec = some q ∧ 0 ≤ q) ∧
      (rec.status ≠ .played → rec.duration_sec = none) := by
  intro rec hrec
  simp only [mainRecords, List.mem_map, List.mem_range] at hrec
  obtain ⟨i, hi, rfl⟩ := hrec
  have hw := wait_spec (env.pages i) sel mw
  constructor
  · intro hst
    have hst2 : (wait_for_video_end (env.pages i) sel mw).1.outcome = .played := hst
    obtain ⟨t, ht⟩ := hw.1 hst2
    rcases hdur : (wait_for_video_end (env.pages i) sel mw).1.duration with _ | q
    · left
      simp [trialRecord, hdur]
    · rw [hdur] at ht
      by_cases hq : q = 0
      · left
        simp [trialRecord, hdur, hq]
      · right
        exact ⟨round2 q, by simp [trialRecord, hdur, hq],
          round2_nonneg q (hpos i t q ht)⟩
  · intro hst
    have hst2 : (wait_for_video_end (env.pages i) sel mw).1.outcome ≠ .played := hst
    simp [trialRecord, hw.2 hst2]

/-- Witness for C3: a concrete played trial whose recorded duration is null
or non-negative. -/
theorem claim_C3_witness :
    (trialRecord "video" 600 sampleEnv 0).duration_sec = none ∨
    ∃ q, (trialRecord "video" 600 sampleEnv 0).duration_sec = some q ∧ 0 ≤ q := by
  have hpos : ∀ i t q, (sampleEnv.pages i).playedEval t = Except.ok (some q) →
      0 ≤ q := by
    intro i t q h
    simp only [sampleEnv, samplePage, Except.ok.injEq, Option.some.injEq] at h
    rw [← h]
    norm_num
  have hmem : trialRecord "video" 600 sampleEnv 0 ∈
      mainRecords "video" 600 sampleEnv 2 := by
    have he : mainRecords "video" 600 sampleEnv 2 =
        [trialRecord "video" 600 sampleEnv 0, trialRecord "video" 600 sampleEnv 1] :=
      rfl
    rw [he]
    exact List.mem_cons_self _ _
  exact (claim_C3 "video" 600 sampleEnv 2 hpos _ hmem).1 rfl

/-- Counterexample to C4 as stated: a trial where the monitor returns the
present (non-null) duration 0.0, yet the appended record holds null rather
than the rounded value — `round(duration, 2) if duration else None` treats
the present value 0.0 as falsy. -/
theorem claim_C4_counterexample :
    (wait_for_video_end zeroDurationPage "video" 600).1.duration = some 0 ∧
    (trialRecord "video" 600 zeroDurationEnv 0).duration_sec = none ∧
    (trialRecord "video" 600 zeroDurationEnv 0).duration_sec ≠ some (round2 0) := by
  refine ⟨rfl, by decide, by decide⟩

/-- Claim C4 (amended): whenever the monitor returns a non-null duration
that is nonzero, the appended record holds that duration rounded to 2
decimal places; a present duration equal to 0 is replaced by null (Python
truthiness in `round(duration, 2) if duration else None`). -/
theorem claim_C4_amended (sel : String) (mw : ℤ) (env : Env) (i : ℕ) (q : ℚ)
    (h : (wait_for_video_end (env.pages i) sel mw).1.duration = some q) :
    (q ≠ 0 → (trialRecord sel mw env i).duration_sec = some (round2 q)) ∧
    (q = 0 → (trialRecord sel mw env i).duration_sec = none) := by
  constructor
  · intro hq
    simp [trialRecord, h, hq]
  · intro hq
    simp [trialRecord, h, hq]

/-- Witness for the amended C4: a monitor duration of 12.3 is recorded
rounded. -/
theorem claim_C4_witness :
    (trialRecord "video" 600 sampleEnv 0).duration_sec = some (round2 (123 / 10)) := by
  have h : (wait_for_video_end (sampleEnv.pages 0) "video" 600).1.duration =
      some (123 / 10) := rfl
  exact (claim_C4_amended "video" 600 sampleEnv 0 (123 / 10) h).1 (by norm_num)

/-- Claim C5: with the element found, the duration probe succeeding and play
accepted, if `ended` is never observed within the coerced bound, the monitor
performs exactly `coerceMaxWait m` polls and sleeps at 1-second cadence and
returns `timeout` with a null duration and a note that includes the coerced
bound. -/
theorem claim_C5 (page : PageBehavior) (sel : String) (m : ℤ)
    (hq : page.queryResult = .ok true) (hd : ∃ d, page.durationEval = .ok d)
    (hp : page.playEval = .ok true)
    (hended : ∀ t, t < coerceMaxWait m → page.endedEval t = .ok false) :
    wait_for_video_end page sel m =
      (⟨.timeout, none, timeoutNote (coerceMaxWait m)⟩,
        ⟨1, coerceMaxWait m, coerceMaxWait m⟩) ∧
    strIncludes (timeoutNote (coerceMaxWait m)) (toString (coerceMaxWait m)) := by
  obtain ⟨d, hd⟩ := hd
  constructor
  · rw [wait_unfold_steps page sel m hq d hd hp]
    unfold pollLoop
    rw [pollLoopAux_all_false page (coerceMaxWait m) (coerceMaxWait m) 0 ⟨1, 0, 0⟩
      (fun t h1 h2 => hended t (by omega))]
    simp
  · exact ⟨"Timed out after ".data, " seconds waiting for video to end.".data, by
      simp [timeoutNote, String.data_append]⟩

/-- Witness for C5: max-wait 5, element never ends; the note mentions the
coerced bound 5. -/
theorem claim_C5_witness :
    toString (coerceMaxWait 5) = "5" ∧
    wait_for_video_end neverEndedPage "video" 5 =
      (⟨.timeout, none, timeoutNote (coerceMaxWait 5)⟩,
        ⟨1, coerceMaxWait 5, coerceMaxWait 5⟩) ∧
    strIncludes (timeoutNote (coerceMaxWait 5)) (toString (coerceMaxWait 5)) :=
  ⟨by decide, (claim_C5 neverEndedPage "video" 5 rfl ⟨10, rfl⟩ rfl
    (fun t _ => rfl)).1, (claim_C5 neverEndedPage "video" 5 rfl ⟨10, rfl⟩ rfl
    (fun t _ => rfl)).2⟩

/-- Claim C6: when a poll first observes `ended = true` — including when the
element has disappeared, since the ended script reads a missing element as
ended — the monitor returns `played` with the fixed success note, and the
reported duration is the value of the read-back script: the current playback
position, falling back to the element duration when the position reads
falsy, and null when neither is obtainable (in particular a position of 12.3
is reported as 12.3). -/
theorem claim_C6 (init : ElemState) (trace : ℕ → Option ElemState)
    (sel : String) (m : ℤ) (t : ℕ)
    (ht : t < coerceMaxWait m)
    (hbefore : ∀ u, u < t → endedExprSem (trace u) = false)
    (hat : endedExprSem (trace t) = true) :
    (wait_for_video_end (pageOfTrace (some init) false trace) sel m).1 =
      ⟨.played, playedExprSem (trace t), playedNote⟩ ∧
    (∀ v : ElemState, v.currentTime ≠ 0 →
      playedExprSem (some v) = some v.currentTime) ∧
    (∀ (v : ElemState) (d : ℚ), v.currentTime = 0 → v.duration = some d →
      d ≠ 0 → playedExprSem (some v) = some d) ∧
    (∀ v : ElemState, v.currentTime = 0 → v.duration = none →
      playedExprSem (some v) = none) ∧
    endedExprSem none = true := by
  refine ⟨?_, ?_, ?_, ?_, rfl⟩
  · refine wait_first_ended (pageOfTrace (some init) false trace) sel m t
      (playedExprSem (trace t)) rfl ⟨durationProbeSem (some init), rfl⟩ rfl ht
      ?_ ?_ rfl
    · intro u hu
      show Except.ok (endedExprSem (trace u)) = Except.ok false
      rw [hbefore u hu]
    · show Except.ok (endedExprSem (trace t)) = Except.ok true
      rw [hat]
  · intro v hv
    simp [playedExprSem, hv]
  · intro v d h0 hdur hd0
    simp [playedExprSem, h0, hdur, hd0]
  · intro v h0 hdur
    simp [playedExprSem, h0, hdur]

/-- Witness for C6: an element not ended at poll 0 and ended at poll 1 with
position 12.3; the reported duration is 12.3. -/
theorem claim_C6_witness :
    (wait_for_video_end (pageOfTrace (some ⟨false, 3, some 20⟩) false sampleTrace)
        "video" 600).1 =
      ⟨.played, playedExprSem (sampleTrace 1), playedNote⟩ ∧
    playedExprSem (sampleTrace 1) = some (123 / 10) :=
  ⟨(claim_C6 ⟨false, 3, some 20⟩ sampleTrace "video" 600 1 (by decide)
      (by decide) (by decide)).1, by norm_num [sampleTrace, playedExprSem]⟩

/-- Claim C7: a `query_selector` miss returns `no_video` at once with a null
duration and a note that contains "No element matching selector" and names
the selector; no play evaluation, no poll and no sleep is performed. -/
theorem claim_C7 (page : PageBehavior) (sel : String) (mw : ℤ)
    (h : page.queryResult = .ok false) :
    wait_for_video_end page sel mw =
      (⟨.no_video, none, noVideoNote sel⟩, ⟨0, 0, 0⟩) ∧
    strIncludes (noVideoNote sel) "No element matching selector" ∧
    strIncludes (noVideoNote sel) sel := by
  refine ⟨?_, ?_, ?_⟩
  · unfold wait_for_video_end waitForVideoEndCore
    rw [h]
    rfl
  · refine ⟨[], (" \x27" ++ sel ++ "\x27 found.").data, ?_⟩
    have h27 : "No element matching selector \x27".data =
        "No element matching selector".data ++ " \x27".data := by decide
    simp [noVideoNote, String.data_append, h27]
  · exact ⟨"No element matching selector \x27".data, "\x27 found.".data, by
      simp [noVideoNote, String.data_append]⟩

/-- Witness for C7: the selector "video" matches nothing. -/
theorem claim_C7_witness :
    wait_for_video_end absentPage "video" 600 =
      (⟨.no_video, none, noVideoNote "video"⟩, ⟨0, 0, 0⟩) ∧
    strIncludes (noVideoNote "video") "No element matching selector" ∧
    strIncludes (noVideoNote "video") "video" :=
  claim_C7 absentPage "video" 600 rfl

/-- Claim C8: when the element exists but the play script reports failure
(it returns false when `play()` throws at the call site), the monitor
returns `play_failed` with a null duration and the autoplay note without
entering the poll loop; if play always fails this way, every trial of the
run records `play_failed`. -/
theorem claim_C8 (sel : String) (mw : ℤ) (env : Env) (runs : ℤ)
    (h : ∀ i, (env.pages i).queryResult = .ok true ∧
      (∃ d, (env.pages i).durationEval = .ok d) ∧
      (env.pages i).playEval = .ok false) :
    (∀ i, wait_for_video_end (env.pages i) sel mw =
      (⟨.play_failed, none, playFailedNote⟩, ⟨1, 0, 0⟩)) ∧
    (∀ rec ∈ mainRecords sel mw env runs,
      rec.status = .play_failed ∧ rec.duration_sec = none) ∧
    (∀ v : ElemState, startedExprSem (some v) true = false) := by
  have hmon : ∀ i, wait_for_video_end (env.pages i) sel mw =
      (⟨.play_failed, none, playFailedNote⟩, ⟨1, 0, 0⟩) := by
    intro i
    obtain ⟨hq, ⟨d, hd⟩, hp⟩ := h i
    unfold wait_for_video_end waitForVideoEndCore
    rw [hq, hd, hp]
    rfl
  refine ⟨hmon, ?_, fun v => rfl⟩
  intro rec hrec
  simp only [mainRecords, List.mem_map, List.mem_range] at hrec
  obtain ⟨i, hi, rfl⟩ := hrec
  simp [trialRecord, hmon i]

/-- Witness for C8: a concrete page whose play script reports failure. -/
theorem claim_C8_witness :
    wait_for_video_end playFailPage "video" 600 =
      (⟨.play_failed, none, playFailedNote⟩, ⟨1, 0, 0⟩) :=
  (claim_C8 "video" 600 playFailEnv 3 (fun _ => ⟨rfl, ⟨10, rfl⟩, rfl⟩)).1 0

/-- Claim C9: if the element exists, play is accepted and `ended` is already
true at the first poll, the monitor returns `played` at that first poll with
zero sleeps, for every max-wait value; the statement quantifies over every
page behavior satisfying the precondition, so re-running the monitor against
such a page yields the same `played` classification. -/
theorem claim_C9 (page : PageBehavior) (sel : String) (m : ℤ) (p : Option ℚ)
    (hq : page.queryResult = .ok true) (hd : ∃ d, page.durationEval = .ok d)
    (hp : page.playEval = .ok true)
    (hat : page.endedEval 0 = .ok true) (hpl : page.playedEval 0 = .ok p) :
    wait_for_video_end page sel m = (⟨.played, p, playedNote⟩, ⟨1, 1, 0⟩) := by
  obtain ⟨d, hd⟩ := hd
  rw [wait_unfold_steps page sel m hq d hd hp]
  obtain ⟨k, hk⟩ : ∃ k, coerceMaxWait m = k + 1 :=
    ⟨coerceMaxWait m - 1, by have := coerceMaxWait_pos m; omega⟩
  unfold pollLoop
  rw [hk]
  simp only [pollLoopAux, hat, hpl]
  rfl

/-- Witness for C9: a page already ended at poll 0, with a negative max-wait
(coerced to 600). -/
theorem claim_C9_witness :
    wait_for_video_end samplePage "video" (-7) =
      (⟨.played, some (123 / 10), playedNote⟩, ⟨1, 1, 0⟩) :=
  claim_C9 samplePage "video" (-7) (some (123 / 10)) rfl ⟨10, rfl⟩ rfl rfl rfl

/-- Claim C10 (implicit): the entry point does not validate the trial count
— for a provided URL and any runs value ≤ 0, `main` performs zero trials and
returns an empty report with HTTP status 200 and no error. -/
theorem claim_C10 (u : String) (hu : u ≠ "") (runs : ℤ) (hr : runs ≤ 0)
    (sel : String) (mw : ℤ) (env : Env)
    (hg : env.gotoResult = .ok ()) (hc : env.closeResult = .ok ()) :
    main (some u) runs sel mw env = .okRecords [] 200 := by
  have h0 : runs.toNat = 0 := Int.toNat_eq_zero.mpr hr
  simp [main, hu, hg, hc, mainRecords, h0]

/-- Witness for C10: runs = 0 with a provided URL yields the empty report
with status 200. -/
theorem claim_C10_witness :
    main (some "http://example.test") 0 "video" 600 sampleEnv =
      .okRecords [] 200 :=
  claim_C10 "http://example.test" (by decide) 0 (by decide) "video" 600
    sampleEnv rfl rfl

end VideoPlayback
